import Mathlib

/-!
# Verification of the capvero valuation and forecasting engine

Shallow embedding of the pure calculation services
(`src/services/valuation/*.py`, `src/services/forecast/*.py`).

Modelling conventions:
* Python `decimal.Decimal` values and Python floats are modelled as exact
  rationals (`ℚ`).  The default decimal context (28 significant digits) only
  differs from exact arithmetic beyond the 28th significant digit, which none
  of the verified properties depend on; explicit `.quantize(Decimal("0.01"))`
  calls are modelled by `quantize2` (round half to even at two decimals, the
  default decimal rounding mode).
* Exceptions are modelled with `Except`: the concrete Python exception types
  that the code can raise are the constructors of `PyErr`.  Parameter classes
  whose `__init__` raises `ValueError` on invalid input are modelled as
  structures bundling exactly those validation conditions as proof fields, so
  a value of the structure type is the same thing as a successfully
  constructed parameter object.
-/

namespace Capvero

/-- Python exception types raised by the embedded code paths, plus the
`ComputationError` classification that the specification's error taxonomy
describes (the repository itself defines no such class). -/
inductive PyErr where
  | valueError
  | zeroDivisionError
  | divisionByZero
  | invalidOperation
  | computationError
deriving DecidableEq

/-- Round a rational to an integer, half to even (banker's rounding), the
default rounding mode of Python's decimal context. -/
def roundHalfEven (x : ℚ) : ℤ :=
  let n := ⌊x⌋
  if x - n < 1/2 then n
  else if 1/2 < x - n then n + 1
  else if n % 2 = 0 then n else n + 1

/-- Model of `Decimal.quantize(Decimal("0.01"))`: round to two decimal places, half to
even. -/
def quantize2 (x : ℚ) : ℚ :=
  (roundHalfEven (100 * x) : ℚ) / 100

theorem roundHalfEven_nonneg {x : ℚ} (hx : 0 ≤ x) : 0 ≤ roundHalfEven x := by
  have hfl : (0 : ℤ) ≤ ⌊x⌋ := Int.floor_nonneg.mpr hx
  unfold roundHalfEven
  dsimp only
  split
  · exact hfl
  · split
    · omega
    · split
      · exact hfl
      · omega

theorem roundHalfEven_add_int (x : ℚ) (m : ℤ) (h : x - ⌊x⌋ ≠ 1/2) :
    roundHalfEven (x + m) = roundHalfEven x + m := by
  have hfl : ⌊x + (m : ℚ)⌋ = ⌊x⌋ + m := Int.floor_add_int x m
  have hfrac : x + (m : ℚ) - (⌊x + (m : ℚ)⌋ : ℚ) = x - (⌊x⌋ : ℚ) := by
    rw [hfl]; push_cast; ring
  unfold roundHalfEven
  dsimp only
  rw [hfrac, hfl]
  rcases lt_trichotomy (x - (⌊x⌋ : ℚ)) (1/2) with hlt | heq | hgt
  · rw [if_pos hlt, if_pos hlt]
  · exact absurd heq h
  · rw [if_neg (not_lt.mpr hgt.le), if_neg (not_lt.mpr hgt.le),
      if_pos hgt, if_pos hgt]
    ring

theorem quantize2_nonneg {x : ℚ} (hx : 0 ≤ x) : 0 ≤ quantize2 x := by
  unfold quantize2
  have h : (0 : ℤ) ≤ roundHalfEven (100 * x) :=
    roundHalfEven_nonneg (by positivity)
  positivity

/-- Adding a quantity that is an exact whole number of cents commutes with
`quantize2`, provided the base value is not exactly halfway between two cents
(at such ties banker's rounding may diverge). -/
theorem quantize2_add_cent (x c : ℚ) (hc : (100 * c).den = 1)
    (hx : 100 * x - ⌊(100 * x : ℚ)⌋ ≠ 1/2) :
    quantize2 (x + c) = quantize2 x + c := by
  have hnum : ((100 * c).num : ℚ) = 100 * c := (Rat.den_eq_one_iff _).mp hc
  have harg : 100 * (x + c) = 100 * x + ((100 * c).num : ℚ) := by
    rw [hnum]; ring
  have hc' : c = ((100 * c).num : ℚ) / 100 := by
    rw [hnum]; ring
  unfold quantize2
  rw [harg, roundHalfEven_add_int _ _ hx]
  push_cast
  rw [add_div, ← hc']

/-! ## EBITDA multiple valuation (`src/services/valuation/ebitda_multiple.py`) -/

/-- Company size classification. -/
inductive CompanySize where
  | micro
  | small
  | medium
  | large
deriving DecidableEq

/-- Parameters for EBITDA multiple valuation.  The proof fields are exactly
the `ValueError` checks of `EBITDAMultipleParams.__init__`. -/
structure EBITDAMultipleParams where
  ebitda : ℚ
  base_multiple : ℚ
  growth_rate : ℚ
  risk_score : ℤ
  company_size : CompanySize
  cash : ℚ := 0
  debt : ℚ := 0
  non_operating_assets : ℚ := 0
  risk_score_ge : 1 ≤ risk_score
  risk_score_le : risk_score ≤ 10
  growth_rate_nonneg : 0 ≤ growth_rate

/-- Result record of `EBITDAMultipleService.calculate` (the `details`
sub-entries that merely echo inputs are not repeated here). -/
structure EBITDAMultipleResult where
  calculated_value : ℚ
  enterprise_value : ℚ
  equity_value : ℚ
  adjusted_multiple : ℚ
  growth_factor : ℚ
  risk_factor : ℚ
  size_factor : ℚ
deriving DecidableEq

namespace EBITDAMultipleService

/-- Growth adjustment factor. -/
def calculate_growth_factor (growth_rate : ℚ) : ℚ :=
  if growth_rate < 10 then 0
  else if growth_rate < 20 then (growth_rate - 10) * (15/1000)
  else min (30/100) ((growth_rate - 10) * (15/1000))

/-- Risk adjustment factor. -/
def calculate_risk_factor (risk_score : ℤ) : ℚ :=
  ((risk_score : ℚ) - 1) / 9 * (30/100)

/-- Size adjustment factor. -/
def calculate_size_factor : CompanySize → ℚ
  | .micro => -(20/100)
  | .small => -(10/100)
  | .medium => 0
  | .large => 10/100

/-- Exact (pre-quantization) enterprise value `ebitda * adjusted_multiple`. -/
def enterpriseValueExact (params : EBITDAMultipleParams) : ℚ :=
  params.ebitda * (params.base_multiple *
    (1 + calculate_growth_factor params.growth_rate
       - calculate_risk_factor params.risk_score
       + calculate_size_factor params.company_size))

/-- Model of `EBITDAMultipleService.calculate`. -/
def calculate (params : EBITDAMultipleParams) : EBITDAMultipleResult :=
  let growth_factor := calculate_growth_factor params.growth_rate
  let risk_factor := calculate_risk_factor params.risk_score
  let size_factor := calculate_size_factor params.company_size
  let adjusted_multiple :=
    params.base_multiple * (1 + growth_factor - risk_factor + size_factor)
  let enterprise_value := params.ebitda * adjusted_multiple
  let equity_value :=
    enterprise_value + params.cash - params.debt + params.non_operating_assets
  { calculated_value := quantize2 equity_value
    enterprise_value := quantize2 enterprise_value
    equity_value := quantize2 equity_value
    adjusted_multiple := quantize2 adjusted_multiple
    growth_factor := growth_factor
    risk_factor := risk_factor
    size_factor := size_factor }

theorem calculate_enterprise_value (params : EBITDAMultipleParams) :
    (calculate params).enterprise_value = quantize2 (enterpriseValueExact params) :=
  rfl

theorem calculate_equity_value (params : EBITDAMultipleParams) :
    (calculate params).equity_value =
      quantize2 (enterpriseValueExact params +
        (params.cash - params.debt + params.non_operating_assets)) := by
  show quantize2 (enterpriseValueExact params + params.cash - params.debt
      + params.non_operating_assets) = _
  congr 1
  ring

end EBITDAMultipleService

/-- A successfully constructed parameter set whose exact enterprise value is an
exact half cent (0.005), on which the two quantizations of the equity bridge
tie-break in opposite directions. -/
def ebitdaTieParams : EBITDAMultipleParams where
  ebitda := 1/200
  base_multiple := 1
  growth_rate := 0
  risk_score := 1
  company_size := .medium
  cash := 1/100
  risk_score_ge := by decide
  risk_score_le := by decide
  growth_rate_nonneg := le_refl 0

/-- C2 counterexample: for the successfully constructed parameters
`ebitda = 0.005, base_multiple = 1, growth_rate = 0, risk_score = 1,
company_size = medium, cash = 0.01, debt = 0, non_operating_assets = 0`,
the returned (rounded) values satisfy `enterprise_value = 0.00` and
`equity_value = 0.02`, so `equity_value ≠ enterprise_value + cash - debt +
non_operating_assets = 0.01`: banker's rounding of the exact half-cent
enterprise value `0.005` breaks the identity between the two returned
values. -/
theorem ebitda_equity_bridge_cex :
    (EBITDAMultipleService.calculate ebitdaTieParams).equity_value ≠
      (EBITDAMultipleService.calculate ebitdaTieParams).enterprise_value
        + ebitdaTieParams.cash - ebitdaTieParams.debt
        + ebitdaTieParams.non_operating_assets := by
  norm_num [EBITDAMultipleService.calculate, EBITDAMultipleService.calculate_growth_factor,
    EBITDAMultipleService.calculate_risk_factor, EBITDAMultipleService.calculate_size_factor,
    ebitdaTieParams, quantize2, roundHalfEven]

/-- C2 (amended): for every successfully constructed `EBITDAMultipleParams`,
`equity_value = enterprise_value + cash - debt + non_operating_assets` holds
exactly among the returned 2-decimal-rounded values whenever
`cash - debt + non_operating_assets` is an exact whole number of cents and the
exact (pre-rounding) enterprise value is not exactly halfway between two
cents; at such half-cent ties the two separate quantizations can diverge. -/
theorem ebitda_equity_bridge_identity (p : EBITDAMultipleParams)
    (hc : (100 * (p.cash - p.debt + p.non_operating_assets)).den = 1)
    (hev : 100 * EBITDAMultipleService.enterpriseValueExact p
        - ⌊(100 * EBITDAMultipleService.enterpriseValueExact p : ℚ)⌋ ≠ 1/2) :
    (EBITDAMultipleService.calculate p).equity_value =
      (EBITDAMultipleService.calculate p).enterprise_value
        + p.cash - p.debt + p.non_operating_assets := by
  rw [EBITDAMultipleService.calculate_equity_value,
    EBITDAMultipleService.calculate_enterprise_value,
    quantize2_add_cent _ _ hc hev]
  ring

/-- Concrete witness parameters for the amended C2 identity. -/
def ebitdaBridgeParams : EBITDAMultipleParams where
  ebitda := 100
  base_multiple := 5
  growth_rate := 0
  risk_score := 1
  company_size := .medium
  cash := 50
  debt := 20
  non_operating_assets := 10
  risk_score_ge := by decide
  risk_score_le := by decide
  growth_rate_nonneg := le_refl 0

/-- Witness for the amended C2 identity at concrete parameters
(exact enterprise value 500, cents shift 40.00). -/
theorem ebitda_equity_bridge_identity_witness :
    (EBITDAMultipleService.calculate ebitdaBridgeParams).equity_value =
      (EBITDAMultipleService.calculate ebitdaBridgeParams).enterprise_value
        + ebitdaBridgeParams.cash - ebitdaBridgeParams.debt
        + ebitdaBridgeParams.non_operating_assets :=
  ebitda_equity_bridge_identity ebitdaBridgeParams
    (by norm_num [ebitdaBridgeParams])
    (by norm_num [EBITDAMultipleService.enterpriseValueExact,
      EBITDAMultipleService.calculate_growth_factor,
      EBITDAMultipleService.calculate_risk_factor,
      EBITDAMultipleService.calculate_size_factor, ebitdaBridgeParams])

/-! ## Earnings value valuation (`src/services/valuation/earnings_value.py`) -/

/-- Python truthiness of an `Optional[Decimal]`: `None` and `Decimal("0")`
are falsy, every other value is truthy. -/
def pyTruthy : Option ℚ → Bool
  | none => false
  | some a => decide (a ≠ 0)

/-- Parameters for earnings value valuation.  The proof fields are exactly the
`ValueError` checks of `EarningsValueParams.__init__` (the emptiness check is
subsumed by the length check). -/
structure EarningsValueParams where
  historical_earnings : List ℚ
  risk_free_rate : ℚ
  risk_premium : ℚ
  use_practitioner_method : Bool := false
  asset_value : Option ℚ := none
  earnings_len : 3 ≤ historical_earnings.length
  risk_free_rate_nonneg : 0 ≤ risk_free_rate
  risk_premium_nonneg : 0 ≤ risk_premium
  asset_value_required : use_practitioner_method = true → asset_value ≠ none

/-- Result record of `EarningsValueService.calculate`. -/
structure EarningsValueResult where
  calculated_value : ℚ
  sustainable_earnings : ℚ
  capitalization_rate : ℚ
  pure_earnings_value : ℚ
  practitioner_adjustment : Bool
deriving DecidableEq

namespace EarningsValueService

/-- Sustainable earnings: arithmetic mean of the historical earnings. -/
def calculate_sustainable_earnings (historical_earnings : List ℚ) : ℚ :=
  historical_earnings.sum / historical_earnings.length

/-- Model of `EarningsValueService.calculate`.  A zero capitalization rate makes the
`Decimal` division raise: `DivisionByZero`, or `InvalidOperation` when the
dividend (the sustainable earnings) is also zero. -/
def calculate (params : EarningsValueParams) : Except PyErr EarningsValueResult :=
  let sustainable_earnings := calculate_sustainable_earnings params.historical_earnings
  let capitalization_rate := params.risk_free_rate + params.risk_premium
  if capitalization_rate = 0 then
    .error (if sustainable_earnings = 0 then .invalidOperation else .divisionByZero)
  else
    let earnings_value := sustainable_earnings / capitalization_rate * 100
    let blend := params.use_practitioner_method && pyTruthy params.asset_value
    let final_value :=
      if blend then (2 * earnings_value + params.asset_value.getD 0) / 3
      else earnings_value
    .ok { calculated_value := quantize2 final_value
          sustainable_earnings := quantize2 sustainable_earnings
          capitalization_rate := capitalization_rate
          pure_earnings_value := quantize2 earnings_value
          practitioner_adjustment := blend }

end EarningsValueService

/-- Successfully constructed parameters with the practitioner flag set and
`asset_value = Decimal("0")` supplied. -/
def earningsZeroAssetParams : EarningsValueParams where
  historical_earnings := [100, 100, 100]
  risk_free_rate := 5/100
  risk_premium := 5/100
  use_practitioner_method := true
  asset_value := some 0
  earnings_len := by decide
  risk_free_rate_nonneg := by norm_num
  risk_premium_nonneg := by norm_num
  asset_value_required := fun _ h => by simp at h

/-- C3: at `historical_earnings = [100,100,100]`, `risk_free_rate = 0.05`,
`risk_premium = 0.05`, `use_practitioner_method = True`, `asset_value = 0`,
`calculate` returns the pure earnings value `100000.00` with
`practitioner_adjustment = False`, instead of the blended value
`(2*100000 + 0)/3` rounded `= 66666.67` that the requested practitioner
method prescribes: the truthiness test `params.use_practitioner_method and
params.asset_value` treats `Decimal("0")` like a missing asset value. -/
theorem earnings_zero_asset_value_divergence :
    EarningsValueService.calculate earningsZeroAssetParams =
      .ok { calculated_value := 100000
            sustainable_earnings := 100
            capitalization_rate := 1/10
            pure_earnings_value := 100000
            practitioner_adjustment := false } ∧
    quantize2 ((2 * 100000 + 0) / 3) = 6666667/100 := by
  constructor
  · norm_num [EarningsValueService.calculate,
      EarningsValueService.calculate_sustainable_earnings,
      earningsZeroAssetParams, pyTruthy, quantize2, roundHalfEven]
  · norm_num [quantize2, roundHalfEven]

/-- Successfully constructed parameters with both rates zero. -/
def earningsZeroRateParams : EarningsValueParams where
  historical_earnings := [100, 100, 100]
  risk_free_rate := 0
  risk_premium := 0
  earnings_len := by decide
  risk_free_rate_nonneg := le_refl 0
  risk_premium_nonneg := le_refl 0
  asset_value_required := fun h => Bool.noConfusion h

/-- C4 counterexample: with both rates zero the calculation fails with the raw
decimal `DivisionByZero` exception, not with any classified
`ComputationError` (the repository defines no such class). -/
theorem earnings_zero_cap_rate_cex :
    EarningsValueService.calculate earningsZeroRateParams =
      .error PyErr.divisionByZero ∧
    PyErr.divisionByZero ≠ PyErr.computationError := by
  constructor
  · norm_num [EarningsValueService.calculate,
      EarningsValueService.calculate_sustainable_earnings, earningsZeroRateParams]
  · exact fun h => nomatch h

/-- C4 (amended): for every successfully constructed `EarningsValueParams`
with `risk_free_rate + risk_premium = 0`, `calculate` never succeeds: it
raises the unclassified decimal division error (`DivisionByZero`, or
`InvalidOperation` when the mean of the historical earnings is also zero). -/
theorem earnings_zero_cap_rate_fails (p : EarningsValueParams)
    (h : p.risk_free_rate + p.risk_premium = 0) :
    EarningsValueService.calculate p = .error PyErr.divisionByZero ∨
    EarningsValueService.calculate p = .error PyErr.invalidOperation := by
  rcases eq_or_ne
      (EarningsValueService.calculate_sustainable_earnings p.historical_earnings) 0
        with hse | hse
  · right
    unfold EarningsValueService.calculate
    rw [if_pos h, if_pos hse]
  · left
    unfold EarningsValueService.calculate
    rw [if_pos h, if_neg hse]

/-- Witness for C4 at concrete parameters (both rates zero, nonzero mean). -/
theorem earnings_zero_cap_rate_fails_witness :
    EarningsValueService.calculate earningsZeroRateParams =
      .error PyErr.divisionByZero ∨
    EarningsValueService.calculate earningsZeroRateParams =
      .error PyErr.invalidOperation :=
  earnings_zero_cap_rate_fails earningsZeroRateParams
    (by norm_num [earningsZeroRateParams])

/-! ## DCF valuation (`src/services/valuation/dcf.py`) -/

/-- Parameters for DCF valuation.  The proof fields are exactly the
`ValueError` checks of `DCFParams.__init__`. -/
structure DCFParams where
  fcf_projections : List ℚ
  wacc : ℚ
  terminal_growth_rate : ℚ
  cash : ℚ := 0
  debt : ℚ := 0
  non_operating_assets : ℚ := 0
  fcf_nonempty : fcf_projections ≠ []
  wacc_pos : 0 < wacc
  tgr_lt_wacc : terminal_growth_rate < wacc
  tgr_nonneg : 0 ≤ terminal_growth_rate

/-- Parameters for WACC calculation (`WACCParams.__init__` performs no
validation). -/
structure WACCParams where
  risk_free_rate : ℚ
  beta : ℚ
  market_risk_premium : ℚ
  size_premium : ℚ
  company_specific_risk : ℚ
  interest_rate : ℚ
  equity_value : ℚ
  debt_value : ℚ
  tax_rate : ℚ

/-- Result record of `DCFService.calculate`. -/
structure DCFResult where
  calculated_value : ℚ
  enterprise_value : ℚ
  equity_value : ℚ
  sum_pv_fcfs : ℚ
  terminal_value : ℚ
  pv_terminal_value : ℚ
deriving DecidableEq

namespace DCFService

/-- Model of `DCFService.calculate_wacc`. -/
def calculate_wacc (params : WACCParams) : ℚ :=
  let cost_of_equity :=
    params.risk_free_rate + params.beta * params.market_risk_premium
      + params.size_premium + params.company_specific_risk
  let cost_of_debt := params.interest_rate
  let total_capital := params.equity_value + params.debt_value
  let equity_weight :=
    if 0 < total_capital then params.equity_value / total_capital else 1
  let debt_weight :=
    if 0 < total_capital then params.debt_value / total_capital else 0
  equity_weight * cost_of_equity + debt_weight * cost_of_debt * (1 - params.tax_rate)

/-- The discounting loop of `DCFService.calculate`: each projection for year
`t` (1-indexed) contributes `fcf / (1 + wacc)^t` to the running sum. -/
def sumPvFcfs (wacc : ℚ) : ℕ → List ℚ → ℚ
  | _, [] => 0
  | t, fcf :: rest => fcf / (1 + wacc) ^ t + sumPvFcfs wacc (t + 1) rest

/-- Terminal value `fcf_final * (1 + g) / (wacc - g)`. -/
def terminalValue (p : DCFParams) : ℚ :=
  p.fcf_projections.getLast p.fcf_nonempty * (1 + p.terminal_growth_rate)
    / (p.wacc - p.terminal_growth_rate)

/-- Exact (pre-quantization) enterprise value: discounted FCF sum plus
discounted terminal value. -/
def enterpriseValueRaw (p : DCFParams) : ℚ :=
  sumPvFcfs p.wacc 1 p.fcf_projections
    + terminalValue p / (1 + p.wacc) ^ p.fcf_projections.length

/-- Model of `DCFService.calculate`. -/
def calculate (p : DCFParams) : DCFResult :=
  let sum_pv_fcfs := sumPvFcfs p.wacc 1 p.fcf_projections
  let terminal_value := terminalValue p
  let n := p.fcf_projections.length
  let pv_terminal := terminal_value / (1 + p.wacc) ^ n
  let enterprise_value := sum_pv_fcfs + pv_terminal
  let equity_value :=
    enterprise_value + p.cash - p.debt + p.non_operating_assets
  { calculated_value := quantize2 equity_value
    enterprise_value := quantize2 enterprise_value
    equity_value := quantize2 equity_value
    sum_pv_fcfs := quantize2 sum_pv_fcfs
    terminal_value := quantize2 terminal_value
    pv_terminal_value := quantize2 pv_terminal }

theorem calculate_enterprise_value_def (p : DCFParams) :
    (calculate p).enterprise_value = quantize2 (enterpriseValueRaw p) :=
  rfl

theorem sumPvFcfs_nonneg (wacc : ℚ) (hw : 0 < 1 + wacc) (t : ℕ) (l : List ℚ)
    (hl : ∀ f ∈ l, 0 ≤ f) : 0 ≤ sumPvFcfs wacc t l := by
  induction l generalizing t with
  | nil => simp [sumPvFcfs]
  | cons f rest ih =>
    have hf : 0 ≤ f := hl f (List.mem_cons_self f rest)
    have hrest : 0 ≤ sumPvFcfs wacc (t + 1) rest :=
      ih (t + 1) (fun g hg => hl g (List.mem_cons_of_mem f hg))
    have hpow : 0 < (1 + wacc) ^ t := pow_pos hw t
    have : 0 ≤ f / (1 + wacc) ^ t := div_nonneg hf hpow.le
    simpa [sumPvFcfs] using add_nonneg this hrest

theorem sumPvFcfs_pos (wacc : ℚ) (hw : 0 < 1 + wacc) (t : ℕ) (l : List ℚ)
    (hne : l ≠ []) (hl : ∀ f ∈ l, 0 < f) : 0 < sumPvFcfs wacc t l := by
  cases l with
  | nil => exact absurd rfl hne
  | cons f rest =>
    have hf : 0 < f := hl f (List.mem_cons_self f rest)
    have hpow : 0 < (1 + wacc) ^ t := pow_pos hw t
    have hhead : 0 < f / (1 + wacc) ^ t := div_pos hf hpow
    have hrest : 0 ≤ sumPvFcfs wacc (t + 1) rest :=
      sumPvFcfs_nonneg wacc hw (t + 1) rest
        (fun g hg => (hl g (List.mem_cons_of_mem f hg)).le)
    simpa [sumPvFcfs] using add_pos_of_pos_of_nonneg hhead hrest

end DCFService

/-- C8 (amended): for every successfully constructed `DCFParams` with all FCF
projections strictly positive, the exact (pre-rounding) enterprise value is
strictly positive and the returned (2-decimal-rounded) enterprise value is
nonnegative.  The returned value itself can round down to `0.00`, so it is
not always strictly positive. -/
theorem dcf_enterprise_value_positive (p : DCFParams)
    (hpos : ∀ f ∈ p.fcf_projections, 0 < f) :
    0 < DCFService.enterpriseValueRaw p ∧
    0 ≤ (DCFService.calculate p).enterprise_value := by
  have hw : 0 < 1 + p.wacc := by linarith [p.wacc_pos]
  have hsum : 0 < DCFService.sumPvFcfs p.wacc 1 p.fcf_projections :=
    DCFService.sumPvFcfs_pos p.wacc hw 1 p.fcf_projections p.fcf_nonempty hpos
  have hlast : 0 < p.fcf_projections.getLast p.fcf_nonempty :=
    hpos _ (List.getLast_mem p.fcf_nonempty)
  have hg : 0 < 1 + p.terminal_growth_rate := by linarith [p.tgr_nonneg]
  have hden : 0 < p.wacc - p.terminal_growth_rate := by
    linarith [p.tgr_lt_wacc]
  have htv : 0 < DCFService.terminalValue p := by
    unfold DCFService.terminalValue
    positivity
  have hpvt : 0 < DCFService.terminalValue p
      / (1 + p.wacc) ^ p.fcf_projections.length := by
    have := pow_pos hw p.fcf_projections.length
    positivity
  have hraw : 0 < DCFService.enterpriseValueRaw p := by
    unfold DCFService.enterpriseValueRaw
    exact add_pos hsum hpvt
  exact ⟨hraw, by
    rw [DCFService.calculate_enterprise_value_def]
    exact quantize2_nonneg hraw.le⟩

/-- Successfully constructed DCF parameters with a single strictly positive
FCF projection of `0.001`. -/
def dcfTinyParams : DCFParams where
  fcf_projections := [1/1000]
  wacc := 1
  terminal_growth_rate := 0
  fcf_nonempty := by simp
  wacc_pos := by norm_num
  tgr_lt_wacc := by norm_num
  tgr_nonneg := le_refl 0

/-- C8 counterexample: with `fcf_projections = [0.001]`, `wacc = 1`,
`terminal_growth_rate = 0` (all projections strictly positive), the exact
enterprise value is `0.001`, which the final `.quantize(Decimal("0.01"))`
rounds to `0.00`: the returned enterprise value is not strictly positive. -/
theorem dcf_enterprise_value_cex :
    (0 : ℚ) < 1/1000 ∧
    ¬ (0 < (DCFService.calculate dcfTinyParams).enterprise_value) := by
  constructor
  · norm_num
  · norm_num [DCFService.calculate, DCFService.sumPvFcfs,
      DCFService.terminalValue, dcfTinyParams, List.getLast, quantize2,
      roundHalfEven]

/-- Witness for C8 at concrete parameters (`fcf = [100]`, `wacc = 0.1`,
`g = 0`). -/
theorem dcf_enterprise_value_positive_witness :
    0 < DCFService.enterpriseValueRaw
        ⟨[100], 1/10, 0, 0, 0, 0, by simp, by norm_num, by norm_num, le_refl 0⟩ ∧
    0 ≤ (DCFService.calculate
        ⟨[100], 1/10, 0, 0, 0, 0, by simp, by norm_num, by norm_num, le_refl 0⟩).enterprise_value :=
  dcf_enterprise_value_positive _ (by
    intro f hf
    simp only [List.mem_singleton] at hf
    rw [hf]
    norm_num)

/-- C9: when `equity_value + debt_value = 0` (so the positivity test on total
capital fails), `calculate_wacc` divides by nothing and returns exactly the
CAPM cost of equity. -/
theorem wacc_zero_capital_cost_of_equity (p : WACCParams)
    (h : p.equity_value + p.debt_value = 0) :
    DCFService.calculate_wacc p =
      p.risk_free_rate + p.beta * p.market_risk_premium
        + p.size_premium + p.company_specific_risk := by
  unfold DCFService.calculate_wacc
  dsimp only
  rw [h]
  norm_num

/-- Witness for C9 at concrete parameters (both capital values zero). -/
theorem wacc_zero_capital_cost_of_equity_witness :
    DCFService.calculate_wacc ⟨3/100, 12/10, 5/100, 1/100, 2/100, 4/100, 0, 0, 25/100⟩ =
      (3/100 : ℚ) + (12/10) * (5/100) + 1/100 + 2/100 :=
  wacc_zero_capital_cost_of_equity _ (by norm_num)

/-! ## Manual forecast (`src/services/forecast/manual_forecast.py`) -/

/-- A `{year, value}` dictionary (used for both historical points and manual
projections). -/
structure YearValue where
  year : ℤ
  value : ℚ
deriving DecidableEq

/-- Parameters for manual forecasting.  The proof fields are exactly the
`ValueError` checks of `ManualForecastParams.__init__` (key presence is
represented by the `YearValue` type itself). -/
structure ManualForecastParams where
  projections : List YearValue
  historical_data : List YearValue := []
  projections_nonempty : projections ≠ []
  values_nonneg : ∀ p ∈ projections, 0 ≤ p.value

/-- Warnings emitted by the plausibility validation (the formatted message
strings are represented by their distinguishing content). -/
inductive ForecastWarning where
  | noHistoricalData
  | extremeGrowth (year : ℤ) (growth_rate avg_historical_growth : ℚ)
  | negativeValue (year : ℤ)
deriving DecidableEq

/-- Result of `validate_plausibility`; `historical_avg_growth` is absent from
the no-historical-data early return. -/
structure PlausibilityResult where
  is_plausible : Bool
  warnings : List ForecastWarning
  historical_avg_growth : Option ℚ
deriving DecidableEq

/-- A prediction dictionary; scenario entries additionally carry a
`scenario` key. -/
structure Prediction where
  year : ℤ
  predicted_value : ℚ
  lower_bound : ℚ
  upper_bound : ℚ
  scenario : Option String := none
deriving DecidableEq

/-- The `{base, best, worst}` dictionary returned by `generate_scenarios`. -/
structure ScenarioSet where
  base : List Prediction
  best : List Prediction
  worst : List Prediction
deriving DecidableEq

namespace ManualForecastService

/-- The historical growth-rate loop: `(v[i] - v[i-1]) / v[i-1]` for each
consecutive pair; a zero predecessor raises `ZeroDivisionError`. -/
def historicalGrowthRates (prev : ℚ) : List ℚ → Except PyErr (List ℚ)
  | [] => .ok []
  | v :: rest =>
    if prev = 0 then .error .zeroDivisionError
    else
      match historicalGrowthRates v rest with
      | .error e => .error e
      | .ok gs => .ok (((v - prev) / prev) :: gs)

/-- The projected growth-rate loop over `[last_historical] + projections`:
per projection, flags `|growth| > 0.5` as extreme and a negative projected
value; a zero predecessor raises `ZeroDivisionError`. -/
def projectionWarnings (avg : ℚ) (prev : ℚ) :
    List YearValue → Except PyErr (List ForecastWarning)
  | [] => .ok []
  | p :: rest =>
    if prev = 0 then .error .zeroDivisionError
    else
      let growth_rate := (p.value - prev) / prev
      let w1 : List ForecastWarning :=
        if 1/2 < |growth_rate| then [.extremeGrowth p.year growth_rate avg] else []
      let w2 : List ForecastWarning :=
        if p.value < 0 then [.negativeValue p.year] else []
      match projectionWarnings avg p.value rest with
      | .error e => .error e
      | .ok ws => .ok (w1 ++ w2 ++ ws)

/-- Model of `ManualForecastService.validate_plausibility`. -/
def validate_plausibility (projections : List YearValue)
    (historical_data : List YearValue) : Except PyErr PlausibilityResult :=
  match historical_data with
  | [] =>
    .ok { is_plausible := true
          warnings := [.noHistoricalData]
          historical_avg_growth := none }
  | h :: t =>
    match historicalGrowthRates h.value (t.map (·.value)) with
    | .error e => .error e
    | .ok rates =>
      let avg := if rates.isEmpty then 0 else rates.sum / rates.length
      match projectionWarnings avg
          ((h :: t).getLast (List.cons_ne_nil h t)).value projections with
      | .error e => .error e
      | .ok ws =>
        .ok { is_plausible := ws.isEmpty
              warnings := ws
              historical_avg_growth := some avg }

/-- Model of `ManualForecastService.calculate_confidence_intervals`: synthetic
`± confidence_width` interval around each projected value. -/
def calculate_confidence_intervals (projections : List YearValue)
    (confidence_width : ℚ := 15/100) : List Prediction :=
  projections.map fun proj =>
    { year := proj.year
      predicted_value := proj.value
      lower_bound := proj.value * (1 - confidence_width)
      upper_bound := proj.value * (1 + confidence_width) }

end ManualForecastService

/-- Result record of `ManualForecastService.calculate` (`model_metrics` is
omitted: its standard-deviation entry is an irrational square root outside
this rational model, and no verified property references it). -/
structure ManualForecastResult where
  predictions : List Prediction
  validation : PlausibilityResult
  projection_count : ℕ
  confidence_width : ℚ
  data_points : ℕ
  projection_points : ℕ
deriving DecidableEq

namespace ManualForecastService

/-- Model of `ManualForecastService.calculate`. -/
def calculate (params : ManualForecastParams) :
    Except PyErr ManualForecastResult :=
  match validate_plausibility params.projections params.historical_data with
  | .error e => .error e
  | .ok validation =>
    .ok { predictions := calculate_confidence_intervals params.projections
          validation := validation
          projection_count := params.projections.length
          confidence_width := 15/100
          data_points := params.historical_data.length
          projection_points := params.projections.length }

/-- Model of `ManualForecastService.generate_scenarios`: best/worst scale the
predicted value by the case factor and carry the base bounds through
unchanged. -/
def generate_scenarios (base_predictions : List Prediction)
    (best_case_factor : ℚ := 12/10) (worst_case_factor : ℚ := 8/10) :
    ScenarioSet :=
  { base := base_predictions
    best := base_predictions.map fun pred =>
      { year := pred.year
        predicted_value := pred.predicted_value * best_case_factor
        lower_bound := pred.lower_bound
        upper_bound := pred.upper_bound
        scenario := some "best" }
    worst := base_predictions.map fun pred =>
      { year := pred.year
        predicted_value := pred.predicted_value * worst_case_factor
        lower_bound := pred.lower_bound
        upper_bound := pred.upper_bound
        scenario := some "worst" } }

end ManualForecastService

/-- C5: `generate_scenarios` with default factors returns the base list
unmodified; per position the best entry scales the predicted value by 1.20
and the worst by 0.80, with years and both bounds carried through unchanged
from the base prediction. -/
theorem manual_scenarios_factors (base_predictions : List Prediction) :
    (ManualForecastService.generate_scenarios base_predictions).base
        = base_predictions ∧
    (ManualForecastService.generate_scenarios base_predictions).best.map
        Prediction.year = base_predictions.map Prediction.year ∧
    (ManualForecastService.generate_scenarios base_predictions).best.map
        Prediction.predicted_value
      = base_predictions.map (fun p => p.predicted_value * (12/10)) ∧
    (ManualForecastService.generate_scenarios base_predictions).best.map
        Prediction.lower_bound = base_predictions.map Prediction.lower_bound ∧
    (ManualForecastService.generate_scenarios base_predictions).best.map
        Prediction.upper_bound = base_predictions.map Prediction.upper_bound ∧
    (ManualForecastService.generate_scenarios base_predictions).worst.map
        Prediction.year = base_predictions.map Prediction.year ∧
    (ManualForecastService.generate_scenarios base_predictions).worst.map
        Prediction.predicted_value
      = base_predictions.map (fun p => p.predicted_value * (8/10)) ∧
    (ManualForecastService.generate_scenarios base_predictions).worst.map
        Prediction.lower_bound = base_predictions.map Prediction.lower_bound ∧
    (ManualForecastService.generate_scenarios base_predictions).worst.map
        Prediction.upper_bound = base_predictions.map Prediction.upper_bound := by
  refine ⟨rfl, ?_, ?_, ?_, ?_, ?_, ?_, ?_, ?_⟩ <;>
    simp [ManualForecastService.generate_scenarios, List.map_map, Function.comp]

/-- C1 (amended, positive part): every base prediction produced by
`ManualForecastService.calculate` satisfies
`lower_bound ≤ predicted_value ≤ upper_bound`, since the synthetic ±15%
interval brackets the (validated nonnegative) projected value. -/
theorem manual_predictions_within_bounds (params : ManualForecastParams)
    (r : ManualForecastResult)
    (h : ManualForecastService.calculate params = .ok r) :
    ∀ pred ∈ r.predictions,
      pred.lower_bound ≤ pred.predicted_value ∧
      pred.predicted_value ≤ pred.upper_bound := by
  intro pred hpred
  have hpreds : r.predictions =
      ManualForecastService.calculate_confidence_intervals params.projections := by
    unfold ManualForecastService.calculate at h
    cases hv : ManualForecastService.validate_plausibility params.projections
        params.historical_data with
    | error e => rw [hv] at h; exact absurd h (by simp)
    | ok v =>
      rw [hv] at h
      injection h with h2
      rw [← h2]
  rw [hpreds] at hpred
  unfold ManualForecastService.calculate_confidence_intervals at hpred
  simp only [List.mem_map] at hpred
  obtain ⟨proj, hproj, rfl⟩ := hpred
  have hv : 0 ≤ proj.value := params.values_nonneg proj hproj
  constructor <;> dsimp only <;> nlinarith [hv]

/-- C1 counterexample: the base prediction for a projection of value 100 has
bounds [85, 115]; the best-scenario entry generated from it keeps those
bounds but scales the predicted value to 120, violating
`predicted_value ≤ upper_bound`. -/
theorem scenario_bounds_cex :
    (ManualForecastService.generate_scenarios
        (ManualForecastService.calculate_confidence_intervals [⟨2025, 100⟩])).best =
      [⟨2025, 120, 85, 115, some "best"⟩] ∧
    ¬ ((120 : ℚ) ≤ 115) := by
  constructor
  · norm_num [ManualForecastService.generate_scenarios,
      ManualForecastService.calculate_confidence_intervals]
  · norm_num

/-- Concrete witness parameters: a single projection of value 100 and no
historical data. -/
def manualParamsA : ManualForecastParams where
  projections := [⟨2025, 100⟩]
  historical_data := []
  projections_nonempty := by simp
  values_nonneg := by
    intro p hp
    simp only [List.mem_singleton] at hp
    subst hp
    norm_num

/-- Witness for the amended C1 bound at concrete parameters. -/
theorem manual_predictions_within_bounds_witness :
    (⟨2025, 100, 85, 115, none⟩ : Prediction).lower_bound ≤
      (⟨2025, 100, 85, 115, none⟩ : Prediction).predicted_value ∧
    (⟨2025, 100, 85, 115, none⟩ : Prediction).predicted_value ≤
      (⟨2025, 100, 85, 115, none⟩ : Prediction).upper_bound :=
  manual_predictions_within_bounds manualParamsA
    { predictions := [⟨2025, 100, 85, 115, none⟩]
      validation := ⟨true, [.noHistoricalData], none⟩
      projection_count := 1
      confidence_width := 15/100
      data_points := 0
      projection_points := 1 }
    (by norm_num [ManualForecastService.calculate,
      ManualForecastService.validate_plausibility,
      ManualForecastService.calculate_confidence_intervals, manualParamsA])
    ⟨2025, 100, 85, 115, none⟩ (by simp)

/-- The projected-growth loop never emits a negative-value warning when every
projection value is nonnegative. -/
theorem projectionWarnings_no_negative (avg : ℚ) (y : ℤ) :
    ∀ (l : List YearValue) (prev : ℚ) (ws : List ForecastWarning),
      (∀ p ∈ l, 0 ≤ p.value) →
      ManualForecastService.projectionWarnings avg prev l = .ok ws →
      ForecastWarning.negativeValue y ∉ ws := by
  intro l
  induction l with
  | nil =>
    intro prev ws _ hw
    unfold ManualForecastService.projectionWarnings at hw
    injection hw with h2
    rw [← h2]
    simp
  | cons p rest ih =>
    intro prev ws hl hw
    unfold ManualForecastService.projectionWarnings at hw
    by_cases hprev : prev = 0
    · rw [if_pos hprev] at hw
      exact absurd hw (by simp)
    · rw [if_neg hprev] at hw
      dsimp only at hw
      cases hrec : ManualForecastService.projectionWarnings avg p.value rest with
      | error e => rw [hrec] at hw; exact absurd hw (by simp)
      | ok ws' =>
        rw [hrec] at hw
        injection hw with hw2
        rw [← hw2]
        have hp : 0 ≤ p.value := hl p (List.mem_cons_self p rest)
        have hw2' : (if p.value < 0 then [ForecastWarning.negativeValue p.year]
            else ([] : List ForecastWarning)) = [] := if_neg (not_lt.mpr hp)
        rw [hw2']
        intro hmem
        simp only [List.append_nil, List.mem_append] at hmem
        rcases hmem with h1 | h3
        · revert h1
          split
          · simp
          · simp
        · exact ih p.value ws'
            (fun q hq => hl q (List.mem_cons_of_mem p hq)) hrec h3

/-- C10: through the public `calculate` entry point, the plausibility
validation never emits a negative-value warning: the parameter constructor
already rejects any projection with a negative value, making that branch of
`validate_plausibility` unreachable. -/
theorem manual_no_negative_value_warning (params : ManualForecastParams)
    (r : ManualForecastResult)
    (h : ManualForecastService.calculate params = .ok r) (y : ℤ) :
    ForecastWarning.negativeValue y ∉ r.validation.warnings := by
  unfold ManualForecastService.calculate at h
  cases hv : ManualForecastService.validate_plausibility params.projections
      params.historical_data with
  | error e => rw [hv] at h; exact absurd h (by simp)
  | ok v =>
    rw [hv] at h
    injection h with h2
    rw [← h2]
    dsimp only
    unfold ManualForecastService.validate_plausibility at hv
    cases hd : params.historical_data with
    | nil =>
      rw [hd] at hv
      injection hv with hv2
      rw [← hv2]
      simp
    | cons hh tt =>
      rw [hd] at hv
      dsimp only at hv
      cases hr : ManualForecastService.historicalGrowthRates hh.value
          (tt.map (·.value)) with
      | error e => rw [hr] at hv; exact absurd hv (by simp)
      | ok rates =>
        rw [hr] at hv
        dsimp only at hv
        cases hw : ManualForecastService.projectionWarnings
            (if rates.isEmpty then 0 else rates.sum / rates.length)
            ((hh :: tt).getLast (List.cons_ne_nil hh tt)).value
            params.projections with
        | error e => rw [hw] at hv; exact absurd hv (by simp)
        | ok ws =>
          rw [hw] at hv
          injection hv with hv2
          rw [← hv2]
          exact projectionWarnings_no_negative _ y params.projections _ ws
            params.values_nonneg hw

/-- Concrete witness parameters with nonempty historical data. -/
def manualParamsB : ManualForecastParams where
  projections := [⟨2025, 100⟩]
  historical_data := [⟨2023, 50⟩, ⟨2024, 80⟩]
  projections_nonempty := by simp
  values_nonneg := by
    intro p hp
    simp only [List.mem_singleton] at hp
    subst hp
    norm_num

/-- Witness for C10 at concrete parameters (historical data [50, 80],
projection 100: the computation succeeds and its warning list carries no
negative-value warning). -/
theorem manual_no_negative_value_warning_witness :
    ForecastWarning.negativeValue 2025 ∉
      ({ predictions := [⟨2025, 100, 85, 115, none⟩]
         validation := ⟨true, [], some (3/5)⟩
         projection_count := 1
         confidence_width := 15/100
         data_points := 2
         projection_points := 1 } : ManualForecastResult).validation.warnings :=
  manual_no_negative_value_warning manualParamsB _
    (by norm_num [ManualForecastService.calculate,
      ManualForecastService.validate_plausibility,
      ManualForecastService.historicalGrowthRates,
      ManualForecastService.projectionWarnings,
      ManualForecastService.calculate_confidence_intervals,
      List.getLast, manualParamsB, abs_le])
    2025

/-! ## Sensitivity analysis (`src/services/valuation/sensitivity.py`) -/

/-- Parameters for sensitivity analysis.  The proof fields are exactly the
`ValueError` checks of `SensitivityParams.__init__`. -/
structure SensitivityParams where
  variable_name : String
  base_value : ℚ
  min_value : ℚ
  max_value : ℚ
  steps : ℕ := 20
  min_lt_max : min_value < max_value
  steps_ge_two : 2 ≤ steps

/-- The two fields of a valuation dictionary read back by the sweep
(`valuation.get(...)` returns `None` for a missing key). -/
structure ValuationOutput where
  enterprise_value : Option ℚ
  calculated_value : Option ℚ

/-- One `{variable_value, enterprise_value, equity_value}` sweep point. -/
structure SweepPoint where
  variable_value : ℚ
  enterprise_value : Option ℚ
  equity_value : Option ℚ
deriving DecidableEq

/-- The dictionary returned by `perform_analysis`. -/
structure SweepResult where
  variable_name : String
  base_value : ℚ
  min_value : ℚ
  max_value : ℚ
  steps : ℕ
  results : List SweepPoint
deriving DecidableEq

namespace SensitivityService

/-- Model of `SensitivityService.perform_analysis`.  The heterogeneous parameter
dictionary and its single-key override (`test_params = base_params.copy();
test_params[name] = test_value`) are abstracted as an opaque parameter type
`α` with a supplied override function. -/
def perform_analysis {α : Type} (params : SensitivityParams)
    (base_params : α) (setVar : α → ℚ → α)
    (valuation_func : α → ValuationOutput) : SweepResult :=
  let step_size := (params.max_value - params.min_value) / (params.steps : ℚ)
  { variable_name := params.variable_name
    base_value := params.base_value
    min_value := params.min_value
    max_value := params.max_value
    steps := params.steps
    results := (List.range (params.steps + 1)).map fun (i : ℕ) =>
      let test_value := params.min_value + (i : ℚ) * step_size
      let valuation := valuation_func (setVar base_params test_value)
      { variable_value := test_value
        enterprise_value := valuation.enterprise_value
        equity_value := valuation.calculated_value } }

end SensitivityService

/-- C6: the sweep returns exactly `steps + 1` points; the i-th variable value
is `min_value + i * step_size` (so the sequence starts at `min_value`), and
consecutive points are strictly increasing with constant difference
`step_size = (max_value - min_value) / steps`. -/
theorem sensitivity_sweep_spec {α : Type} (params : SensitivityParams)
    (base_params : α) (setVar : α → ℚ → α)
    (valuation_func : α → ValuationOutput) :
    (SensitivityService.perform_analysis params base_params setVar
        valuation_func).results.length = params.steps + 1 ∧
    (SensitivityService.perform_analysis params base_params setVar
        valuation_func).results.map SweepPoint.variable_value =
      (List.range (params.steps + 1)).map (fun (i : ℕ) => params.min_value +
        (i : ℚ) * ((params.max_value - params.min_value) / (params.steps : ℚ))) ∧
    ((SensitivityService.perform_analysis params base_params setVar
        valuation_func).results.head?.map SweepPoint.variable_value) =
      some params.min_value ∧
    List.Chain' (fun a b => a.variable_value < b.variable_value ∧
        b.variable_value = a.variable_value +
          (params.max_value - params.min_value) / (params.steps : ℚ))
      (SensitivityService.perform_analysis params base_params setVar
        valuation_func).results := by
  have hsteps : 0 < (params.steps : ℚ) := by
    have := params.steps_ge_two
    positivity
  have hstep : 0 < (params.max_value - params.min_value) / (params.steps : ℚ) :=
    div_pos (sub_pos.mpr params.min_lt_max) hsteps
  refine ⟨?_, ?_, ?_, ?_⟩
  · show ((List.range (params.steps + 1)).map _).length = params.steps + 1
    rw [List.length_map, List.length_range]
  · simp [SensitivityService.perform_analysis]
  · simp [SensitivityService.perform_analysis, List.range_succ_eq_map]
  · rw [SensitivityService.perform_analysis]
    dsimp only
    refine List.chain'_map_of_chain' _ ?_
      ((List.chain'_range_succ (fun a b => b = a + 1) params.steps).mpr
        (fun m _ => rfl))
    rintro a b rfl
    refine ⟨?_, ?_⟩
    · dsimp only
      push_cast
      nlinarith [hstep]
    · dsimp only
      push_cast
      ring

/-- One sweep point as consumed by the tornado calculation.  The equity
values read back from a sweep are numeric there (a `None` equity value would
make Python's `min` comparison raise before any entry is built, a path no
verified property touches). -/
structure TornadoPoint where
  variable_value : ℚ
  equity_value : ℚ
deriving DecidableEq

/-- One per-variable sweep result as consumed by the tornado calculation. -/
structure TornadoInput where
  variable_name : String
  results : List TornadoPoint
deriving DecidableEq

/-- One tornado chart entry. -/
structure TornadoEntry where
  variable_name : String
  base_valuation : ℚ
  min_valuation : ℚ
  max_valuation : ℚ
  downside_impact : ℚ
  upside_impact : ℚ
  total_impact : ℚ
deriving DecidableEq

/-- Python's `min` over a list of numbers (raises `ValueError` on an empty
sequence). -/
def pyMin (l : List ℚ) : Except PyErr ℚ :=
  match l with
  | [] => .error .valueError
  | v :: rest => .ok (rest.foldl min v)

/-- Python's `max` over a list of numbers (raises `ValueError` on an empty
sequence). -/
def pyMax (l : List ℚ) : Except PyErr ℚ :=
  match l with
  | [] => .error .valueError
  | v :: rest => .ok (rest.foldl max v)

/-- Descending comparison on total impact, the sort key of
`tornado_data.sort(key=lambda x: x["total_impact"], reverse=True)`. -/
def tornadoGE (a b : TornadoEntry) : Prop :=
  b.total_impact ≤ a.total_impact

instance : DecidableRel tornadoGE :=
  fun a b => inferInstanceAs (Decidable (b.total_impact ≤ a.total_impact))

instance : IsTotal TornadoEntry tornadoGE :=
  ⟨fun a b => le_total b.total_impact a.total_impact⟩

instance : IsTrans TornadoEntry tornadoGE :=
  ⟨fun _ _ _ h1 h2 => le_trans h2 h1⟩

namespace SensitivityService

/-- The per-variable loop body of `calculate_tornado_chart_data`, building
one entry per sweep result. -/
def buildTornadoEntries (base_valuation : ℚ) :
    List TornadoInput → Except PyErr (List TornadoEntry)
  | [] => .ok []
  | s :: rest =>
    match pyMin (s.results.map TornadoPoint.equity_value) with
    | .error e => .error e
    | .ok min_valuation =>
      match pyMax (s.results.map TornadoPoint.equity_value) with
      | .error e => .error e
      | .ok max_valuation =>
        let downside_impact := |base_valuation - min_valuation|
        let upside_impact := |max_valuation - base_valuation|
        let total_impact := downside_impact + upside_impact
        match buildTornadoEntries base_valuation rest with
        | .error e => .error e
        | .ok entries =>
          .ok ({ variable_name := s.variable_name
                 base_valuation := base_valuation
                 min_valuation := min_valuation
                 max_valuation := max_valuation
                 downside_impact := downside_impact
                 upside_impact := upside_impact
                 total_impact := total_impact } :: entries)

/-- Model of `SensitivityService.calculate_tornado_chart_data`.  Python's stable
descending sort is modelled by insertion sort on `tornadoGE`; the relative
order of entries with equal total impact is not observed by any verified
property. -/
def calculate_tornado_chart_data (base_valuation : ℚ)
    (sensitivity_results : List TornadoInput) :
    Except PyErr (List TornadoEntry) :=
  match buildTornadoEntries base_valuation sensitivity_results with
  | .error e => .error e
  | .ok tornado_data => .ok (tornado_data.insertionSort tornadoGE)

theorem buildTornadoEntries_ok (base_valuation : ℚ) :
    ∀ (rs : List TornadoInput), (∀ s ∈ rs, s.results ≠ []) →
      ∃ l, buildTornadoEntries base_valuation rs = .ok l ∧
        l.length = rs.length ∧
        ∀ e ∈ l, ∃ s ∈ rs, ∃ mn mx,
          pyMin (s.results.map TornadoPoint.equity_value) = .ok mn ∧
          pyMax (s.results.map TornadoPoint.equity_value) = .ok mx ∧
          e.variable_name = s.variable_name ∧
          e.min_valuation = mn ∧
          e.max_valuation = mx ∧
          e.downside_impact = |base_valuation - mn| ∧
          e.upside_impact = |mx - base_valuation| ∧
          e.total_impact = e.downside_impact + e.upside_impact := by
  intro rs
  induction rs with
  | nil => exact fun _ => ⟨[], rfl, rfl, by simp⟩
  | cons s rest ih =>
    intro hne
    obtain ⟨l, hl, hlen, hprops⟩ :=
      ih (fun t ht => hne t (List.mem_cons_of_mem s ht))
    have hsne : s.results ≠ [] := hne s (List.mem_cons_self s rest)
    obtain ⟨v, vs, hvs⟩ : ∃ v vs, s.results.map TornadoPoint.equity_value = v :: vs := by
      cases hsr : s.results with
      | nil => exact absurd hsr hsne
      | cons p ps => exact ⟨p.equity_value, ps.map TornadoPoint.equity_value, by simp [hsr]⟩
    refine ⟨{ variable_name := s.variable_name
              base_valuation := base_valuation
              min_valuation := vs.foldl min v
              max_valuation := vs.foldl max v
              downside_impact := |base_valuation - vs.foldl min v|
              upside_impact := |vs.foldl max v - base_valuation|
              total_impact := |base_valuation - vs.foldl min v|
                + |vs.foldl max v - base_valuation| } :: l, ?_, ?_, ?_⟩
    · unfold buildTornadoEntries
      rw [show pyMin (s.results.map TornadoPoint.equity_value) =
          .ok (vs.foldl min v) by rw [hvs]; rfl]
      rw [show pyMax (s.results.map TornadoPoint.equity_value) =
          .ok (vs.foldl max v) by rw [hvs]; rfl]
      dsimp only
      rw [hl]
    · simp [hlen]
    · intro e he
      rcases List.mem_cons.mp he with rfl | htail
      · refine ⟨s, List.mem_cons_self s rest, vs.foldl min v, vs.foldl max v,
          ?_, ?_, rfl, rfl, rfl, rfl, rfl, rfl⟩
        · rw [hvs]; rfl
        · rw [hvs]; rfl
      · obtain ⟨t, ht, mn, mx, hrest⟩ := hprops e htail
        exact ⟨t, List.mem_cons_of_mem s ht, mn, mx, hrest⟩

end SensitivityService

/-- C7: for every base valuation and every list of sweep results each holding
at least one point, the tornado calculation succeeds with one entry per input
variable; every entry satisfies `total_impact = downside_impact +
upside_impact` with `downside_impact = |base - min(equity_values)|` and
`upside_impact = |max(equity_values) - base|` for its originating variable,
and the returned list is sorted in descending order of total impact. -/
theorem tornado_chart_spec (base_valuation : ℚ) (rs : List TornadoInput)
    (hne : ∀ s ∈ rs, s.results ≠ []) :
    ∃ l, SensitivityService.calculate_tornado_chart_data base_valuation rs = .ok l ∧
      l.length = rs.length ∧
      List.Sorted tornadoGE l ∧
      (∀ e ∈ l, e.total_impact = e.downside_impact + e.upside_impact) ∧
      (∀ e ∈ l, ∃ s ∈ rs, ∃ mn mx,
        pyMin (s.results.map TornadoPoint.equity_value) = .ok mn ∧
        pyMax (s.results.map TornadoPoint.equity_value) = .ok mx ∧
        e.variable_name = s.variable_name ∧
        e.downside_impact = |base_valuation - mn| ∧
        e.upside_impact = |mx - base_valuation|) := by
  obtain ⟨l, hl, hlen, hprops⟩ :=
    SensitivityService.buildTornadoEntries_ok base_valuation rs hne
  refine ⟨l.insertionSort tornadoGE, ?_, ?_, ?_, ?_, ?_⟩
  · unfold SensitivityService.calculate_tornado_chart_data
    rw [hl]
  · rw [List.length_insertionSort, hlen]
  · exact List.sorted_insertionSort tornadoGE l
  · intro e he
    obtain ⟨s, _, mn, mx, h⟩ :=
      hprops e ((List.mem_insertionSort tornadoGE).mp he)
    exact h.2.2.2.2.2.2.2
  · intro e he
    obtain ⟨s, hs, mn, mx, h1, h2, h3, _, _, h6, h7, _⟩ :=
      hprops e ((List.mem_insertionSort tornadoGE).mp he)
    exact ⟨s, hs, mn, mx, h1, h2, h3, h6, h7⟩

/-- Witness for C7 at a concrete input: base valuation 100 and a single sweep
over "wacc" with equity values 90 and 120. -/
theorem tornado_chart_spec_witness :
    ∃ l, SensitivityService.calculate_tornado_chart_data 100
        [⟨"wacc", [⟨1/100, 90⟩, ⟨2/100, 120⟩]⟩] = .ok l ∧
      l.length = 1 ∧
      List.Sorted tornadoGE l ∧
      (∀ e ∈ l, e.total_impact = e.downside_impact + e.upside_impact) ∧
      (∀ e ∈ l, ∃ s ∈ [(⟨"wacc", [⟨1/100, 90⟩, ⟨2/100, 120⟩]⟩ : TornadoInput)],
        ∃ mn mx,
        pyMin (s.results.map TornadoPoint.equity_value) = .ok mn ∧
        pyMax (s.results.map TornadoPoint.equity_value) = .ok mx ∧
        e.variable_name = s.variable_name ∧
        e.downside_impact = |(100 : ℚ) - mn| ∧
        e.upside_impact = |mx - 100|) :=
  tornado_chart_spec 100 [⟨"wacc", [⟨1/100, 90⟩, ⟨2/100, 120⟩]⟩]
    (by intro s hs; simp only [List.mem_singleton] at hs; subst hs; simp)

end Capvero
